import Mathlib

/-!
Verification of the pr-agent MCP server (`server.py`).

The server exposes three tools: `analyze_file_changes` (runs git queries and
assembles a bounded diff analysis record), `get_pr_templates` (reads a fixed
catalog of 7 PR templates) and `suggest_template` (classifies a free-form
change type and recommends a template). The effectful collaborators
(subprocess execution, the MCP session root lookup, the file system) are
modelled as explicit environments; the JSON payloads handed to `json.dumps`
are modelled by the `JValue` type, with object key order preserved as in the
Python dict literals.
-/

namespace PRAgent

/-- JSON-shaped values as built by the Python code before `json.dumps`. -/
inductive JValue where
  | jstr : String → JValue
  | jbool : Bool → JValue
  | jnum : Nat → JValue
  | jobj : List (String × JValue) → JValue
  | jarr : List JValue → JValue

/-- Field lookup in a JSON object (first binding wins, as in a Python dict). -/
def J.lookup (j : JValue) (k : String) : Option JValue :=
  match j with
  | .jobj fields => (fields.find? (fun p => p.1 == k)).map (fun p => p.2)
  | _ => none

/-- The `DEFAULT_TEMPLATES` dict of `server.py`, in declaration order. -/
def DEFAULT_TEMPLATES : List (String × String) :=
  [("bug.md", "Bug Fix"),
   ("feature.md", "Feature"),
   ("docs.md", "Documentation"),
   ("refactor.md", "Refactor"),
   ("test.md", "Test"),
   ("performance.md", "Performance"),
   ("security.md", "Security")]

/-- The `TYPE_MAPPING` dict of `server.py`, in declaration order. -/
def TYPE_MAPPING : List (String × String) :=
  [("bug", "bug.md"),
   ("fix", "bug.md"),
   ("feature", "feature.md"),
   ("enhancement", "feature.md"),
   ("docs", "docs.md"),
   ("documentation", "docs.md"),
   ("refactor", "refactor.md"),
   ("cleanup", "refactor.md"),
   ("test", "test.md"),
   ("testing", "test.md"),
   ("performance", "performance.md"),
   ("optimization", "performance.md"),
   ("security", "security.md")]

/-- Python `str.lower` (ASCII case folding, which covers every key used here). -/
def pyLower (s : String) : String := String.mk (s.data.map Char.toLower)

/-- The whitespace characters stripped by Python `str.strip()`. -/
def isPySpace (c : Char) : Bool :=
  c == ' ' || c == '\t' || c == '\n' || c == '\r' || c == '\x0b' || c == '\x0c'

/-- Python `str.strip()`: drop leading and trailing whitespace. -/
def pyStrip (s : String) : String :=
  String.mk (((s.data.dropWhile isPySpace).reverse.dropWhile isPySpace).reverse)

/-- Split a character list on the newline character; a list with `k` newline
characters yields `k + 1` pieces. -/
def splitNL : List Char → List (List Char)
  | [] => [[]]
  | c :: rest =>
    if c = '\n' then [] :: splitNL rest
    else
      match splitNL rest with
      | [] => [[c]]
      | g :: gs => (c :: g) :: gs

/-- Python `str.splitlines()` for newline-separated text: split on the
newline character and drop the final empty piece produced by a trailing
newline. -/
def pySplitlines (s : String) : List String :=
  let parts := (splitNL s.data).map String.mk
  match parts.reverse with
  | [] => []
  | lastPart :: rest => if lastPart = "" then rest.reverse else parts

/-- Python `"\n".join(...)`. -/
def joinNL : List String → String
  | [] => ""
  | [x] => x
  | x :: y :: xs => x ++ "\n" ++ joinNL (y :: xs)

/-- Environment of `analyze_file_changes`: `run` models
`subprocess.run(argv, capture_output=True, text=True, cwd=cwd)` — returning
captured stdout, or an exception message when the spawn itself fails;
`sessionRoot` models the `mcp.get_context() ... list_roots()` lookup of the
first root path, `none` when that collaborator call fails for any reason;
`osGetcwd` models `os.getcwd()`. -/
structure GitEnv where
  run : List String → String → Except String String
  sessionRoot : Option String
  osGetcwd : String

/-- Working-directory resolution of `analyze_file_changes`: an explicit
`working_directory` argument wins; otherwise the session root is tried, with
its failure swallowed; a still-unset or empty (falsy) value falls back to
`os.getcwd()`. -/
def resolveCwd (env : GitEnv) (working_directory : Option String) : String :=
  let wd := match working_directory with
    | some w => some w
    | none => env.sessionRoot
  match wd with
  | some w => if w = "" then env.osGetcwd else w
  | none => env.osGetcwd

/-- Argument vector of the changed-files query. -/
def filesArgs (base_branch : String) : List String :=
  ["git", "diff", "--name-status", base_branch ++ "...HEAD"]

/-- Argument vector of the diffstat query. -/
def statArgs (base_branch : String) : List String :=
  ["git", "diff", "--stat", base_branch ++ "...HEAD"]

/-- Argument vector of the full-diff query (three-dot range). -/
def diffArgs (base_branch : String) : List String :=
  ["git", "diff", base_branch ++ "...HEAD"]

/-- Argument vector of the commit-log query (two-dot range). -/
def logArgs (base_branch : String) : List String :=
  ["git", "log", "--oneline", base_branch ++ "..HEAD"]

/-- The sentinel placed in the `diff` field when `include_diff` is false. -/
def DIFF_PLACEHOLDER : String :=
  "Diff not included (set include_diff=true to see full diff)"

/-- The two-line notice appended to a truncated diff. -/
def truncationNotice (max_diff_lines total_diff_lines : Nat) : String :=
  "\n\n... Output truncated. Showing " ++ toString max_diff_lines ++ " of " ++
    toString total_diff_lines ++ " lines ..." ++
    "\n... Use max_diff_lines parameter to see more ..."

/-- Result of one `analyze_file_changes` call: the record handed to
`json.dumps`, together with the trace of subprocess invocations
(argument vector and working directory, in execution order). -/
structure AnalyzeOut where
  payload : JValue
  calls : List (List String × String)

/-- The error record produced by the outermost exception handler. -/
def errRecord (e : String) : JValue := .jobj [("error", .jstr e)]

def errOut (e : String) (calls : List (List String × String)) : AnalyzeOut :=
  ⟨errRecord e, calls⟩

/-- The analysis record assembled on success, with the dict key order of the
source. -/
def successRecord (base_branch files_changed statistics commits diff : String)
    (truncated : Bool) (total_diff_lines : Nat) (cwd : String) : JValue :=
  .jobj
    [("base_branch", .jstr base_branch),
     ("files_changed", .jstr files_changed),
     ("statistics", .jstr statistics),
     ("commits", .jstr commits),
     ("diff", .jstr diff),
     ("truncated", .jbool truncated),
     ("total_diff_lines", .jnum total_diff_lines),
     ("_debug", .jobj [("cwd", .jstr cwd)])]

/-- The `analyze_file_changes` tool: resolve the working directory, run the
changed-files, diffstat, (optionally) full-diff and commit-log git queries in
order, apply the truncation policy to the diff, and assemble the analysis
record; the first failing subprocess aborts the call into an error record. -/
def analyze_file_changes (env : GitEnv) (base_branch : String)
    (include_diff : Bool) (max_diff_lines : Nat)
    (working_directory : Option String) : AnalyzeOut :=
  let cwd := resolveCwd env working_directory
  let c1 := (filesArgs base_branch, cwd)
  match env.run (filesArgs base_branch) cwd with
  | .error e => errOut e [c1]
  | .ok filesOut =>
    let c2 := (statArgs base_branch, cwd)
    match env.run (statArgs base_branch) cwd with
    | .error e => errOut e [c1, c2]
    | .ok statOut =>
      let diffCalls := if include_diff then [(diffArgs base_branch, cwd)] else []
      let diffRes : Except String (String × Bool × Nat) :=
        if include_diff then
          match env.run (diffArgs base_branch) cwd with
          | .error e => .error e
          | .ok out =>
            let diff_lines := pySplitlines out
            let total_diff_lines := diff_lines.length
            if total_diff_lines > max_diff_lines then
              .ok (joinNL (diff_lines.take max_diff_lines) ++
                     truncationNotice max_diff_lines total_diff_lines,
                   true, total_diff_lines)
            else
              .ok (out, false, total_diff_lines)
        else .ok ("", false, 0)
      match diffRes with
      | .error e => errOut e ([c1, c2] ++ diffCalls)
      | .ok (diff_content, truncated, total_diff_lines) =>
        let c4 := (logArgs base_branch, cwd)
        match env.run (logArgs base_branch) cwd with
        | .error e => errOut e ([c1, c2] ++ diffCalls ++ [c4])
        | .ok commitsOut =>
          ⟨successRecord base_branch filesOut statOut commitsOut
             (if include_diff then diff_content else DIFF_PLACEHOLDER)
             truncated total_diff_lines cwd,
           [c1, c2] ++ diffCalls ++ [c4]⟩

/-- File-system collaborator of the template catalog: `read` models
`path.read_text(encoding utf-8)` on a template filename, returning the text
or an exception message. -/
structure FS where
  read : String → Except String String

/-- Template content with the read failure swallowed into an empty string. -/
def readOrEmpty (fs : FS) (filename : String) : String :=
  match fs.read filename with
  | .ok content => content
  | .error _ => ""

/-- One catalog entry as assembled by `get_pr_templates`. -/
structure TemplateEntry where
  filename : String
  displayType : String
  content : String

/-- The catalog list built by iterating `DEFAULT_TEMPLATES` in order. -/
def templatesList (fs : FS) : List TemplateEntry :=
  DEFAULT_TEMPLATES.map (fun p => ⟨p.1, p.2, readOrEmpty fs p.1⟩)

/-- JSON encoding of one catalog entry (dict key order as in the source). -/
def entryToJ (t : TemplateEntry) : JValue :=
  .jobj [("filename", .jstr t.filename),
         ("type", .jstr t.displayType),
         ("content", .jstr t.content)]

/-- The `get_pr_templates` tool: the catalog serialized as a JSON array. -/
def get_pr_templates (fs : FS) : JValue := .jarr ((templatesList fs).map entryToJ)

/-- Synonym-table lookup, `TYPE_MAPPING.get(key)`. -/
def typeLookup (key : String) : Option String :=
  (TYPE_MAPPING.find? (fun p => p.1 == key)).map (fun p => p.2)

/-- The change classifier inlined in `suggest_template`:
`TYPE_MAPPING.get(change_type.lower().strip(), "feature.md")`. -/
def classify (change_type : String) : String :=
  (typeLookup (pyStrip (pyLower change_type))).getD "feature.md"

/-- The catalog entry selected by `suggest_template`: first entry whose
filename matches the classified identifier, else the catalog head. -/
def selectedTemplate (fs : FS) (change_type : String) : TemplateEntry :=
  let templates := templatesList fs
  ((templates.find? (fun t => t.filename == classify change_type)).getD
    (templates.headD ⟨"", "", ""⟩))

/-- The reasoning string interpolated by `suggest_template`. -/
def reasoningText (changes_summary change_type : String) : String :=
  "Based on your analysis: '" ++ changes_summary ++
    "', this appears to be a " ++ change_type ++ " change."

/-- The `suggest_template` tool: classify the change type, pick the matching
catalog entry (falling back to the first entry) and assemble the suggestion
record. -/
def suggest_template (fs : FS) (changes_summary change_type : String) : JValue :=
  let selected := selectedTemplate fs change_type
  .jobj
    [("recommended_template", entryToJ selected),
     ("reasoning", .jstr (reasoningText changes_summary change_type)),
     ("template_content", .jstr selected.content),
     ("usage_hint", .jstr "Claude can help you fill out this template based on the specific changes in your PR.")]

/-- A git environment on which every subprocess call succeeds with empty
stdout, and the session root lookup fails. -/
def gitEnvOk : GitEnv := ⟨fun _ _ => .ok "", none, "/repo"⟩

/-- A git environment whose diff query yields four lines and whose other
queries succeed, with no session root. -/
def gitEnvTrunc : GitEnv :=
  ⟨fun argv _ => if argv = diffArgs "main" then .ok "l1\nl2\nl3\nl4\n" else .ok "x\n",
   none, "/repo"⟩

/-- A git environment on which every subprocess call fails to spawn. -/
def gitEnvFail : GitEnv := ⟨fun _ _ => .error "git binary not found", none, "/repo"⟩

/-- A file system on which every template read succeeds. -/
def fsOk : FS := ⟨fun filename => .ok ("content of " ++ filename)⟩

/-- A file system on which every template read fails. -/
def fsErr : FS := ⟨fun _ => .error "io fault"⟩

/-! ## Helper lemmas -/

theorem suggest_lookup_recommended (fs : FS) (s ct : String) :
    J.lookup (suggest_template fs s ct) "recommended_template" =
      some (entryToJ (selectedTemplate fs ct)) := rfl

theorem suggest_lookup_reasoning (fs : FS) (s ct : String) :
    J.lookup (suggest_template fs s ct) "reasoning" =
      some (.jstr (reasoningText s ct)) := rfl

theorem suggest_lookup_content (fs : FS) (s ct : String) :
    J.lookup (suggest_template fs s ct) "template_content" =
      some (.jstr (selectedTemplate fs ct).content) := rfl

theorem templatesList_eq (fs : FS) :
    templatesList fs =
      [⟨"bug.md", "Bug Fix", readOrEmpty fs "bug.md"⟩,
       ⟨"feature.md", "Feature", readOrEmpty fs "feature.md"⟩,
       ⟨"docs.md", "Documentation", readOrEmpty fs "docs.md"⟩,
       ⟨"refactor.md", "Refactor", readOrEmpty fs "refactor.md"⟩,
       ⟨"test.md", "Test", readOrEmpty fs "test.md"⟩,
       ⟨"performance.md", "Performance", readOrEmpty fs "performance.md"⟩,
       ⟨"security.md", "Security", readOrEmpty fs "security.md"⟩] := rfl

theorem lookup_success_base (b f s c df : String) (t : Bool) (n : Nat) (cw : String) :
    J.lookup (successRecord b f s c df t n cw) "base_branch" = some (.jstr b) := rfl

theorem lookup_success_diff (b f s c df : String) (t : Bool) (n : Nat) (cw : String) :
    J.lookup (successRecord b f s c df t n cw) "diff" = some (.jstr df) := rfl

theorem lookup_success_truncated (b f s c df : String) (t : Bool) (n : Nat) (cw : String) :
    J.lookup (successRecord b f s c df t n cw) "truncated" = some (.jbool t) := rfl

theorem lookup_success_total (b f s c df : String) (t : Bool) (n : Nat) (cw : String) :
    J.lookup (successRecord b f s c df t n cw) "total_diff_lines" = some (.jnum n) := rfl

theorem lookup_success_debug (b f s c df : String) (t : Bool) (n : Nat) (cw : String) :
    J.lookup (successRecord b f s c df t n cw) "_debug" =
      some (.jobj [("cwd", .jstr cw)]) := rfl

theorem lookup_success_wd (b f s c df : String) (t : Bool) (n : Nat) (cw : String) :
    J.lookup (successRecord b f s c df t n cw) "working_directory" = none := rfl

theorem lookup_success_error (b f s c df : String) (t : Bool) (n : Nat) (cw : String) :
    J.lookup (successRecord b f s c df t n cw) "error" = none := rfl

theorem lookup_err_error (e : String) :
    J.lookup (errRecord e) "error" = some (.jstr e) := rfl

theorem analyze_ok_true_eq (env : GitEnv) (b : String) (N : Nat) (wd : Option String)
    (f s d c : String)
    (h1 : env.run (filesArgs b) (resolveCwd env wd) = .ok f)
    (h2 : env.run (statArgs b) (resolveCwd env wd) = .ok s)
    (h3 : env.run (diffArgs b) (resolveCwd env wd) = .ok d)
    (h4 : env.run (logArgs b) (resolveCwd env wd) = .ok c) :
    analyze_file_changes env b true N wd =
      ⟨successRecord b f s c
         (if (pySplitlines d).length > N then
            joinNL ((pySplitlines d).take N) ++ truncationNotice N (pySplitlines d).length
          else d)
         (decide ((pySplitlines d).length > N)) (pySplitlines d).length
         (resolveCwd env wd),
       [(filesArgs b, resolveCwd env wd), (statArgs b, resolveCwd env wd),
        (diffArgs b, resolveCwd env wd), (logArgs b, resolveCwd env wd)]⟩ := by
  unfold analyze_file_changes
  simp only [h1, h2, h3, h4]
  by_cases hLN : (pySplitlines d).length > N <;> simp [hLN]

theorem analyze_ok_false_eq (env : GitEnv) (b : String) (N : Nat) (wd : Option String)
    (f s c : String)
    (h1 : env.run (filesArgs b) (resolveCwd env wd) = .ok f)
    (h2 : env.run (statArgs b) (resolveCwd env wd) = .ok s)
    (h4 : env.run (logArgs b) (resolveCwd env wd) = .ok c) :
    analyze_file_changes env b false N wd =
      ⟨successRecord b f s c DIFF_PLACEHOLDER false 0 (resolveCwd env wd),
       [(filesArgs b, resolveCwd env wd), (statArgs b, resolveCwd env wd),
        (logArgs b, resolveCwd env wd)]⟩ := by
  unfold analyze_file_changes
  simp [h1, h2, h4]

theorem analyze_calls_cases_true (env : GitEnv) (b : String) (N : Nat)
    (wd : Option String) :
    (analyze_file_changes env b true N wd).calls = [(filesArgs b, resolveCwd env wd)] ∨
    (analyze_file_changes env b true N wd).calls =
      [(filesArgs b, resolveCwd env wd), (statArgs b, resolveCwd env wd)] ∨
    (analyze_file_changes env b true N wd).calls =
      [(filesArgs b, resolveCwd env wd), (statArgs b, resolveCwd env wd),
       (diffArgs b, resolveCwd env wd)] ∨
    (analyze_file_changes env b true N wd).calls =
      [(filesArgs b, resolveCwd env wd), (statArgs b, resolveCwd env wd),
       (diffArgs b, resolveCwd env wd), (logArgs b, resolveCwd env wd)] := by
  unfold analyze_file_changes
  rcases h1 : env.run (filesArgs b) (resolveCwd env wd) with e1 | f1
  · simp [h1, errOut]
  rcases h2 : env.run (statArgs b) (resolveCwd env wd) with e2 | s2
  · simp [h1, h2, errOut]
  rcases h3 : env.run (diffArgs b) (resolveCwd env wd) with e3 | d3
  · simp [h1, h2, h3, errOut]
  rcases h4 : env.run (logArgs b) (resolveCwd env wd) with e4 | c4
  · by_cases hLN : (pySplitlines d3).length > N <;> simp [h1, h2, h3, h4, hLN, errOut]
  · by_cases hLN : (pySplitlines d3).length > N <;> simp [h1, h2, h3, h4, hLN, errOut]

theorem analyze_calls_cases_false (env : GitEnv) (b : String) (N : Nat)
    (wd : Option String) :
    (analyze_file_changes env b false N wd).calls = [(filesArgs b, resolveCwd env wd)] ∨
    (analyze_file_changes env b false N wd).calls =
      [(filesArgs b, resolveCwd env wd), (statArgs b, resolveCwd env wd)] ∨
    (analyze_file_changes env b false N wd).calls =
      [(filesArgs b, resolveCwd env wd), (statArgs b, resolveCwd env wd),
       (logArgs b, resolveCwd env wd)] := by
  unfold analyze_file_changes
  rcases h1 : env.run (filesArgs b) (resolveCwd env wd) with e1 | f1
  · simp [h1, errOut]
  rcases h2 : env.run (statArgs b) (resolveCwd env wd) with e2 | s2
  · simp [h1, h2, errOut]
  rcases h4 : env.run (logArgs b) (resolveCwd env wd) with e4 | c4 <;>
    simp [h1, h2, h4, errOut]

theorem analyze_payload_shape (env : GitEnv) (b : String) (inc : Bool) (N : Nat)
    (wd : Option String) :
    (∃ e, (analyze_file_changes env b inc N wd).payload = errRecord e) ∨
    (∃ f s c df t n, (analyze_file_changes env b inc N wd).payload =
        successRecord b f s c df t n (resolveCwd env wd)) := by
  unfold analyze_file_changes
  rcases h1 : env.run (filesArgs b) (resolveCwd env wd) with e1 | f1
  · exact Or.inl ⟨e1, by simp [h1, errOut]⟩
  rcases h2 : env.run (statArgs b) (resolveCwd env wd) with e2 | s2
  · exact Or.inl ⟨e2, by simp [h1, h2, errOut]⟩
  cases inc
  · rcases h4 : env.run (logArgs b) (resolveCwd env wd) with e4 | c4
    · exact Or.inl ⟨e4, by simp [h1, h2, h4, errOut]⟩
    · exact Or.inr ⟨f1, s2, c4, DIFF_PLACEHOLDER, false, 0, by simp [h1, h2, h4]⟩
  · rcases h3 : env.run (diffArgs b) (resolveCwd env wd) with e3 | d3
    · exact Or.inl ⟨e3, by simp [h1, h2, h3, errOut]⟩
    rcases h4 : env.run (logArgs b) (resolveCwd env wd) with e4 | c4
    · refine Or.inl ⟨e4, ?_⟩
      by_cases hLN : (pySplitlines d3).length > N <;> simp [h1, h2, h3, h4, hLN, errOut]
    · by_cases hLN : (pySplitlines d3).length > N
      · exact Or.inr ⟨f1, s2, c4,
          joinNL ((pySplitlines d3).take N) ++ truncationNotice N (pySplitlines d3).length,
          true, (pySplitlines d3).length, by simp [h1, h2, h3, h4, hLN]⟩
      · exact Or.inr ⟨f1, s2, c4, d3, false, (pySplitlines d3).length,
          by simp [h1, h2, h3, h4, hLN]⟩

theorem analyze_first_fault (env : GitEnv) (b : String) (inc : Bool) (N : Nat)
    (wd : Option String) (e : String)
    (h : env.run (filesArgs b) (resolveCwd env wd) = .error e) :
    (analyze_file_changes env b inc N wd).payload = errRecord e := by
  unfold analyze_file_changes
  simp [h, errOut]

theorem analyze_calls_cwd (env : GitEnv) (b : String) (inc : Bool) (N : Nat)
    (wd : Option String) :
    ∀ pr ∈ (analyze_file_changes env b inc N wd).calls, pr.2 = resolveCwd env wd := by
  intro pr hpr
  cases inc
  · rcases analyze_calls_cases_false env b N wd with h | h | h <;> rw [h] at hpr <;>
      simp at hpr <;> rcases hpr with rfl | rfl | rfl <;> rfl
  · rcases analyze_calls_cases_true env b N wd with h | h | h | h <;> rw [h] at hpr <;>
      simp at hpr <;> rcases hpr with rfl | rfl | rfl | rfl <;> rfl

theorem analyze_calls_ne_nil (env : GitEnv) (b : String) (inc : Bool) (N : Nat)
    (wd : Option String) : (analyze_file_changes env b inc N wd).calls ≠ [] := by
  cases inc
  · rcases analyze_calls_cases_false env b N wd with h | h | h <;> rw [h] <;> simp
  · rcases analyze_calls_cases_true env b N wd with h | h | h | h <;> rw [h] <;> simp

theorem getD_find?_mem {α : Type} (l : List α) (p : α → Bool) (d : α)
    (hne : l ≠ []) : (l.find? p).getD (l.headD d) ∈ l := by
  cases h : l.find? p with
  | some t => simpa using List.mem_of_find?_eq_some h
  | none =>
    cases l with
    | nil => exact absurd rfl hne
    | cons a as => simp

/-! ## Claim theorems -/

/-- C10: for every pair of input strings, the suggestion record is internally
consistent: its `template_content` equals the content of its
`recommended_template` entry, the recommended entry is one of the 7 catalog
entries, and the catalog is never empty (it always has 7 entries), so the
fallback to the first entry is well defined. -/
theorem suggest_template_internally_consistent (fs : FS) (s ct : String) :
    J.lookup (suggest_template fs s ct) "template_content" =
      some (.jstr (selectedTemplate fs ct).content) ∧
    J.lookup (suggest_template fs s ct) "recommended_template" =
      some (entryToJ (selectedTemplate fs ct)) ∧
    selectedTemplate fs ct ∈ templatesList fs ∧
    (templatesList fs).length = 7 := by
  refine ⟨suggest_lookup_content fs s ct, suggest_lookup_recommended fs s ct, ?_, ?_⟩
  · have hdef : selectedTemplate fs ct =
        ((templatesList fs).find? (fun t => t.filename == classify ct)).getD
          ((templatesList fs).headD ⟨"", "", ""⟩) := rfl
    rw [hdef]
    refine getD_find?_mem _ _ _ ?_
    rw [templatesList_eq fs]
    simp
  · rw [templatesList_eq fs]
    rfl

/-- C6: for every file-system state, `get_pr_templates` returns exactly the
7 catalog entries in declaration order (bug, feature, docs, refactor, test,
performance, security), and an entry whose backing file cannot be read gets
empty-string content while remaining present; no read failure fails the call
as a whole (the function is total). -/
theorem get_pr_templates_seven_entries :
    (∀ fs : FS, get_pr_templates fs = .jarr
      [entryToJ ⟨"bug.md", "Bug Fix", readOrEmpty fs "bug.md"⟩,
       entryToJ ⟨"feature.md", "Feature", readOrEmpty fs "feature.md"⟩,
       entryToJ ⟨"docs.md", "Documentation", readOrEmpty fs "docs.md"⟩,
       entryToJ ⟨"refactor.md", "Refactor", readOrEmpty fs "refactor.md"⟩,
       entryToJ ⟨"test.md", "Test", readOrEmpty fs "test.md"⟩,
       entryToJ ⟨"performance.md", "Performance", readOrEmpty fs "performance.md"⟩,
       entryToJ ⟨"security.md", "Security", readOrEmpty fs "security.md"⟩]) ∧
    (∀ (fs : FS) (filename e : String), fs.read filename = .error e →
       readOrEmpty fs filename = "") := by
  constructor
  · intro fs
    rfl
  · intro fs filename e h
    simp [readOrEmpty, h]

/-- Witness for C6 at a file system on which every read fails: the bug
template entry degrades to empty content. -/
theorem get_pr_templates_seven_entries_witness :
    readOrEmpty fsErr "bug.md" = "" :=
  get_pr_templates_seven_entries.2 fsErr "bug.md" "io fault" rfl

/-- C4: the classifier is pure and total — every string input yields one of
the 7 valid template identifiers — and any input whose normalized form is not
in the synonym table makes `suggest_template` return the feature-template
entry, with the literal input string inside the reasoning text. -/
theorem classifier_total_with_feature_default :
    (∀ ct : String, classify ct ∈ DEFAULT_TEMPLATES.map Prod.fst) ∧
    (∀ (fs : FS) (s ct : String),
       typeLookup (pyStrip (pyLower ct)) = none →
       J.lookup (suggest_template fs s ct) "recommended_template" =
         some (entryToJ ⟨"feature.md", "Feature", readOrEmpty fs "feature.md"⟩) ∧
       ∃ pre post, J.lookup (suggest_template fs s ct) "reasoning" =
         some (.jstr (pre ++ (ct ++ post)))) := by
  constructor
  · intro ct
    unfold classify
    cases h : typeLookup (pyStrip (pyLower ct)) with
    | none => simp [DEFAULT_TEMPLATES]
    | some v =>
      unfold typeLookup at h
      rcases Option.map_eq_some'.mp h with ⟨p, hp, hv⟩
      have hmem := List.mem_of_find?_eq_some hp
      simp only [Option.getD_some]
      subst hv
      simp only [TYPE_MAPPING] at hmem
      fin_cases hmem <;> simp [DEFAULT_TEMPLATES]
  · intro fs s ct h
    have hc : classify ct = "feature.md" := by simp [classify, h]
    have hsel : selectedTemplate fs ct =
        ⟨"feature.md", "Feature", readOrEmpty fs "feature.md"⟩ := by
      unfold selectedTemplate
      rw [templatesList_eq fs, hc]
      rfl
    constructor
    · rw [suggest_lookup_recommended fs s ct, hsel]
    · refine ⟨"Based on your analysis: '" ++ s ++ "', this appears to be a ",
        " change.", ?_⟩
      rw [suggest_lookup_reasoning fs s ct]
      simp [reasoningText, String.append_assoc]

/-- Witness for C4 at the unrecognized input string banana. -/
theorem classifier_total_with_feature_default_witness :
    J.lookup (suggest_template fsOk "adds caching" "banana") "recommended_template" =
      some (entryToJ ⟨"feature.md", "Feature", readOrEmpty fsOk "feature.md"⟩) ∧
    ∃ pre post, J.lookup (suggest_template fsOk "adds caching" "banana") "reasoning" =
      some (.jstr (pre ++ ("banana" ++ post))) :=
  classifier_total_with_feature_default.2 fsOk "adds caching" "banana" (by decide)

/-- C5: classification is invariant under letter-casing and surrounding
whitespace: any input that normalizes (lowercase, strip) to a synonym-table
key classifies like that key; moreover the concrete synonyms resolve as the
spec lists them, and each canonical name maps to its own template. -/
theorem classify_casing_whitespace_invariant :
    (∀ t k : String, k ∈ TYPE_MAPPING.map Prod.fst → pyStrip (pyLower t) = k →
       classify t = classify k) ∧
    (classify "FIX " = "bug.md" ∧ classify "fix" = "bug.md" ∧
     classify "Fix" = "bug.md" ∧ classify "cleanup" = "refactor.md" ∧
     classify "optimization" = "performance.md" ∧ classify "testing" = "test.md" ∧
     classify "bug" = "bug.md" ∧ classify "feature" = "feature.md" ∧
     classify "docs" = "docs.md" ∧ classify "refactor" = "refactor.md" ∧
     classify "test" = "test.md" ∧ classify "performance" = "performance.md" ∧
     classify "security" = "security.md") := by
  constructor
  · intro t k hk hnorm
    have hkk : pyStrip (pyLower k) = k := by
      simp only [TYPE_MAPPING, List.map] at hk
      fin_cases hk <;> rfl
    unfold classify
    rw [hnorm, hkk]
  · decide

/-- Witness for C5: a cased, padded synonym classifies like its canonical
form. -/
theorem classify_casing_whitespace_invariant_witness :
    classify "  Enhancement " = classify "enhancement" :=
  classify_casing_whitespace_invariant.1 "  Enhancement " "enhancement"
    (by decide) (by decide)

/-- C1: with `include_diff = true`, `max_diff_lines = N` and a diff query
output of `L` lines, the record has `truncated = (L > N)` and
`total_diff_lines = L`; the diff field keeps exactly `min L N` of the
original lines, with the two-line truncation notice citing `N` and `L`
appended exactly when `L > N` (otherwise the diff text is returned
unchanged). -/
theorem analyze_truncation_policy (env : GitEnv) (b : String) (N : Nat)
    (wd : Option String) (f s d c : String)
    (h1 : env.run (filesArgs b) (resolveCwd env wd) = .ok f)
    (h2 : env.run (statArgs b) (resolveCwd env wd) = .ok s)
    (h3 : env.run (diffArgs b) (resolveCwd env wd) = .ok d)
    (h4 : env.run (logArgs b) (resolveCwd env wd) = .ok c) :
    J.lookup (analyze_file_changes env b true N wd).payload "truncated" =
      some (.jbool (decide ((pySplitlines d).length > N))) ∧
    J.lookup (analyze_file_changes env b true N wd).payload "total_diff_lines" =
      some (.jnum (pySplitlines d).length) ∧
    ((pySplitlines d).length > N →
      J.lookup (analyze_file_changes env b true N wd).payload "diff" =
        some (.jstr (joinNL ((pySplitlines d).take (min (pySplitlines d).length N)) ++
          ("\n\n... Output truncated. Showing " ++ toString N ++ " of " ++
            toString (pySplitlines d).length ++ " lines ..." ++
            "\n... Use max_diff_lines parameter to see more ...")))) ∧
    ((pySplitlines d).length ≤ N →
      J.lookup (analyze_file_changes env b true N wd).payload "diff" =
        some (.jstr d) ∧
      (pySplitlines d).length = min (pySplitlines d).length N) := by
  rw [analyze_ok_true_eq env b N wd f s d c h1 h2 h3 h4]
  refine ⟨rfl, rfl, ?_, ?_⟩
  · intro hgt
    have hmin : min (pySplitlines d).length N = N :=
      min_eq_right (Nat.le_of_lt hgt)
    rw [hmin]
    show J.lookup (successRecord b f s c _ _ _ _) "diff" = _
    rw [lookup_success_diff, if_pos hgt]
    rfl
  · intro hle
    refine ⟨?_, (min_eq_left hle).symm⟩
    show J.lookup (successRecord b f s c _ _ _ _) "diff" = _
    rw [lookup_success_diff, if_neg (by exact Nat.not_lt.mpr hle)]

/-- Witness for C1: a 4-line diff truncated to 2 lines. -/
theorem analyze_truncation_policy_witness :
    J.lookup (analyze_file_changes gitEnvTrunc "main" true 2 none).payload "truncated" =
      some (.jbool true) ∧
    J.lookup (analyze_file_changes gitEnvTrunc "main" true 2 none).payload "total_diff_lines" =
      some (.jnum 4) ∧
    J.lookup (analyze_file_changes gitEnvTrunc "main" true 2 none).payload "diff" =
      some (.jstr ("l1\nl2" ++
        ("\n\n... Output truncated. Showing 2 of 4 lines ..." ++
          "\n... Use max_diff_lines parameter to see more ..."))) := by
  have h := analyze_truncation_policy gitEnvTrunc "main" 2 none "x\n" "x\n"
    "l1\nl2\nl3\nl4\n" "x\n" rfl rfl rfl rfl
  exact ⟨h.1, h.2.1, h.2.2.1 (by decide)⟩

/-- C2: a fault in any of the subprocess invocations degrades the whole call
to a single error record and never escapes: every call returns either an
error record or a well-formed success record; in particular a spawn fault of
the first git query yields exactly the error record with its message. -/
theorem analyze_fault_to_error_record :
    (∀ (env : GitEnv) (b : String) (inc : Bool) (N : Nat) (wd : Option String),
      (∃ e, (analyze_file_changes env b inc N wd).payload = errRecord e) ∨
      (∃ f s c df t n, (analyze_file_changes env b inc N wd).payload =
          successRecord b f s c df t n (resolveCwd env wd))) ∧
    (∀ (env : GitEnv) (b : String) (inc : Bool) (N : Nat) (wd : Option String)
       (e : String), env.run (filesArgs b) (resolveCwd env wd) = .error e →
      (analyze_file_changes env b inc N wd).payload = errRecord e) := by
  constructor
  · intro env b inc N wd
    exact analyze_payload_shape env b inc N wd
  · intro env b inc N wd e h
    exact analyze_first_fault env b inc N wd e h

/-- Witness for C2: a missing git binary degrades to an error record. -/
theorem analyze_fault_to_error_record_witness :
    (analyze_file_changes gitEnvFail "main" true 500 none).payload =
      errRecord "git binary not found" :=
  analyze_fault_to_error_record.2 gitEnvFail "main" true 500 none
    "git binary not found" rfl

/-- C3 counterexample: a successful analysis record (no error field, the
base_branch field present) has no working_directory field at all. -/
theorem analyze_no_working_directory_field :
    J.lookup (analyze_file_changes gitEnvOk "main" true 500 none).payload "error" =
      none ∧
    J.lookup (analyze_file_changes gitEnvOk "main" true 500 none).payload "base_branch" =
      some (.jstr "main") ∧
    J.lookup (analyze_file_changes gitEnvOk "main" true 500 none).payload "working_directory" =
      none :=
  ⟨rfl, rfl, rfl⟩

/-- C3 amended: every successful (non-error) record is a success record with
base_branch, files_changed, statistics, commits, diff, truncated and
total_diff_lines, and carries the resolved working directory nested in a
_debug object under the cwd key — not in a top-level working_directory
field, which is absent. -/
theorem analyze_success_record_fields (env : GitEnv) (b : String) (inc : Bool)
    (N : Nat) (wd : Option String)
    (hsucc : J.lookup (analyze_file_changes env b inc N wd).payload "error" = none) :
    (∃ f s c df t n, (analyze_file_changes env b inc N wd).payload =
        successRecord b f s c df t n (resolveCwd env wd)) ∧
    J.lookup (analyze_file_changes env b inc N wd).payload "_debug" =
      some (.jobj [("cwd", .jstr (resolveCwd env wd))]) ∧
    J.lookup (analyze_file_changes env b inc N wd).payload "working_directory" =
      none := by
  rcases analyze_payload_shape env b inc N wd with ⟨e, he⟩ | ⟨f, s, c, df, t, n, hp⟩
  · rw [he, lookup_err_error] at hsucc
    exact Option.noConfusion hsucc
  · refine ⟨⟨f, s, c, df, t, n, hp⟩, ?_, ?_⟩ <;> rw [hp]
    · exact lookup_success_debug b f s c df t n (resolveCwd env wd)
    · exact lookup_success_wd b f s c df t n (resolveCwd env wd)

/-- Witness for C3 amended at a successful concrete call. -/
theorem analyze_success_record_fields_witness :
    (∃ f s c df t n, (analyze_file_changes gitEnvOk "main" true 500 none).payload =
        successRecord "main" f s c df t n "/repo") ∧
    J.lookup (analyze_file_changes gitEnvOk "main" true 500 none).payload "_debug" =
      some (.jobj [("cwd", .jstr "/repo")]) ∧
    J.lookup (analyze_file_changes gitEnvOk "main" true 500 none).payload "working_directory" =
      none :=
  analyze_success_record_fields gitEnvOk "main" true 500 none rfl

/-- C7: with `include_diff = false`, the full-diff git query is never issued
(no trace entry carries its argument vector, so no fault can arise from it)
and the diff field of a successful record is the fixed placeholder string. -/
theorem analyze_no_diff_query_when_disabled :
    (∀ (env : GitEnv) (b : String) (N : Nat) (wd : Option String),
       ∀ pr ∈ (analyze_file_changes env b false N wd).calls, pr.1 ≠ diffArgs b) ∧
    (∀ (env : GitEnv) (b : String) (N : Nat) (wd : Option String) (f s c : String),
       env.run (filesArgs b) (resolveCwd env wd) = .ok f →
       env.run (statArgs b) (resolveCwd env wd) = .ok s →
       env.run (logArgs b) (resolveCwd env wd) = .ok c →
       J.lookup (analyze_file_changes env b false N wd).payload "diff" =
         some (.jstr DIFF_PLACEHOLDER)) := by
  constructor
  · intro env b N wd pr hpr
    have hneq1 : filesArgs b ≠ diffArgs b := by simp [filesArgs, diffArgs]
    have hneq2 : statArgs b ≠ diffArgs b := by simp [statArgs, diffArgs]
    have hneq3 : logArgs b ≠ diffArgs b := by simp [logArgs, diffArgs]
    rcases analyze_calls_cases_false env b N wd with h | h | h <;> rw [h] at hpr <;>
      simp at hpr
    · rw [hpr]
      exact hneq1
    · rcases hpr with rfl | rfl
      · exact hneq1
      · exact hneq2
    · rcases hpr with rfl | rfl | rfl
      · exact hneq1
      · exact hneq2
      · exact hneq3
  · intro env b N wd f s c h1 h2 h4
    rw [analyze_ok_false_eq env b N wd f s c h1 h2 h4]
    exact lookup_success_diff b f s c DIFF_PLACEHOLDER false 0 (resolveCwd env wd)

/-- Witness for C7 at a successful concrete call with diff disabled. -/
theorem analyze_no_diff_query_when_disabled_witness :
    J.lookup (analyze_file_changes gitEnvOk "main" false 500 none).payload "diff" =
      some (.jstr DIFF_PLACEHOLDER) :=
  analyze_no_diff_query_when_disabled.2 gitEnvOk "main" 500 none "" "" ""
    rfl rfl rfl

/-- C8: with `include_diff = true`, every subprocess invocation carries one of
the four argument shapes (name-status, stat and full diff over the three-dot
range, log over the two-dot range), and on a fully successful call exactly
those four, in order. -/
theorem analyze_git_query_shapes :
    (∀ (env : GitEnv) (b : String) (N : Nat) (wd : Option String),
       ∀ pr ∈ (analyze_file_changes env b true N wd).calls,
         pr.1 = ["git", "diff", "--name-status", b ++ "...HEAD"] ∨
         pr.1 = ["git", "diff", "--stat", b ++ "...HEAD"] ∨
         pr.1 = ["git", "diff", b ++ "...HEAD"] ∨
         pr.1 = ["git", "log", "--oneline", b ++ "..HEAD"]) ∧
    (∀ (env : GitEnv) (b : String) (N : Nat) (wd : Option String) (f s d c : String),
       env.run (filesArgs b) (resolveCwd env wd) = .ok f →
       env.run (statArgs b) (resolveCwd env wd) = .ok s →
       env.run (diffArgs b) (resolveCwd env wd) = .ok d →
       env.run (logArgs b) (resolveCwd env wd) = .ok c →
       (analyze_file_changes env b true N wd).calls =
         [(["git", "diff", "--name-status", b ++ "...HEAD"], resolveCwd env wd),
          (["git", "diff", "--stat", b ++ "...HEAD"], resolveCwd env wd),
          (["git", "diff", b ++ "...HEAD"], resolveCwd env wd),
          (["git", "log", "--oneline", b ++ "..HEAD"], resolveCwd env wd)]) := by
  constructor
  · intro env b N wd pr hpr
    rcases analyze_calls_cases_true env b N wd with h | h | h | h <;> rw [h] at hpr <;>
      simp at hpr
    · rw [hpr]
      exact Or.inl rfl
    · rcases hpr with rfl | rfl
      · exact Or.inl rfl
      · exact Or.inr (Or.inl rfl)
    · rcases hpr with rfl | rfl | rfl
      · exact Or.inl rfl
      · exact Or.inr (Or.inl rfl)
      · exact Or.inr (Or.inr (Or.inl rfl))
    · rcases hpr with rfl | rfl | rfl | rfl
      · exact Or.inl rfl
      · exact Or.inr (Or.inl rfl)
      · exact Or.inr (Or.inr (Or.inl rfl))
      · exact Or.inr (Or.inr (Or.inr rfl))
  · intro env b N wd f s d c h1 h2 h3 h4
    rw [analyze_ok_true_eq env b N wd f s d c h1 h2 h3 h4]
    rfl

/-- Witness for C8: the four git queries issued by a successful call. -/
theorem analyze_git_query_shapes_witness :
    (analyze_file_changes gitEnvOk "main" true 500 none).calls =
      [(["git", "diff", "--name-status", "main...HEAD"], "/repo"),
       (["git", "diff", "--stat", "main...HEAD"], "/repo"),
       (["git", "diff", "main...HEAD"], "/repo"),
       (["git", "log", "--oneline", "main..HEAD"], "/repo")] :=
  analyze_git_query_shapes.2 gitEnvOk "main" 500 none "" "" "" "" rfl rfl rfl rfl

/-- C9: with `working_directory` absent, every issued git query runs in the
directory obtained from the session root when that lookup succeeds (with a
nonempty path), and in the process current working directory when the lookup
fails; resolution never aborts the call — the first query is always reached
and issued. -/
theorem analyze_cwd_resolution :
    (∀ (env : GitEnv) (b : String) (inc : Bool) (N : Nat),
       env.sessionRoot = none →
       ∀ pr ∈ (analyze_file_changes env b inc N none).calls, pr.2 = env.osGetcwd) ∧
    (∀ (env : GitEnv) (b : String) (inc : Bool) (N : Nat) (r : String),
       env.sessionRoot = some r → r ≠ "" →
       ∀ pr ∈ (analyze_file_changes env b inc N none).calls, pr.2 = r) ∧
    (∀ (env : GitEnv) (b : String) (inc : Bool) (N : Nat) (wd : Option String),
       (analyze_file_changes env b inc N wd).calls ≠ []) := by
  refine ⟨?_, ?_, ?_⟩
  · intro env b inc N hroot pr hpr
    have h := analyze_calls_cwd env b inc N none pr hpr
    rw [h]
    simp [resolveCwd, hroot]
  · intro env b inc N r hroot hne pr hpr
    have h := analyze_calls_cwd env b inc N none pr hpr
    rw [h]
    simp [resolveCwd, hroot, hne]
  · intro env b inc N wd
    exact analyze_calls_ne_nil env b inc N wd

/-- Witness for C9: with no session root, the first query of a concrete call
runs in the process working directory. -/
theorem analyze_cwd_resolution_witness :
    ((["git", "diff", "--name-status", "main...HEAD"], "/repo") :
        List String × String).2 = gitEnvOk.osGetcwd :=
  analyze_cwd_resolution.1 gitEnvOk "main" true 500 rfl
    (["git", "diff", "--name-status", "main...HEAD"], "/repo") (by decide)

end PRAgent
